import Mathlib

/-!
Verification of the fury3d texture / transient-resource-pool unit
(`src/engine/Fury/Texture.cpp`) against its specification.

The development shallowly embeds the code of `Texture.cpp`:

* `Texture` mirrors the fields of the `fury::Texture` class that the unit
  reads or writes (`m_Width`, `m_Height`, `m_Depth`, `m_Format`, `m_Type`,
  `m_FilterMode`, `m_WrapMode`, `m_BorderColor`, `m_Mipmap`, `m_Dirty`,
  `m_ID`, `m_FilePath`), plus an object identity `oid` standing for the
  C++ object's address (allocated freshly by `Texture::Create`).
* `EngineState` packs the shared mutable state the unit touches: the
  static pool `Texture::m_TexturePool` (an association list of key /
  free-stack pairs; a stack is a list whose head is the top), the
  `BufferManager` registry, the tracked memory byte count, and the two
  counters that hand out fresh object identities and fresh GL buffer ids
  (`glGenTextures` never returns 0, hence `nextBufId + 1`).
* C++ `int` becomes `Int`; the one place where the code computes in
  machine arithmetic (the byte-footprint product, which C++ evaluates in
  `unsigned int`) reduces the product modulo `2 ^ 32` explicitly.
* Enum helpers from `EnumUtil` and the `BufferManager` / `Entity`
  surfaces are not part of the shown sources; they are modelled from the
  spec (each such definition carries a doc comment saying so).
-/

/-- Modelled from the spec: `TextureFormat` pixel-format enumeration.  The
enum lives in a header that is not among the sources; the constructors are
the ones `Texture.cpp` mentions (`UNKNOW`, the sRGB family, `RGB8`,
`RGBA8`) plus `R8` as a representative extra format. -/
inductive TextureFormat where
  | UNKNOW
  | R8
  | RGB8
  | RGBA8
  | SRGB
  | SRGB8
  | SRGB_ALPHA
  | SRGB8_ALPHA8
deriving DecidableEq

/-- Modelled from the spec: `TextureType` resource-kind enumeration; the
code mentions `TEXTURE_2D` (the default) and `TEXTURE_2D_ARRAY`. -/
inductive TextureType where
  | TEXTURE_2D
  | TEXTURE_2D_ARRAY
deriving DecidableEq

/-- Modelled from the spec: filter-mode enumeration (`LINEAR` is the
default used by `Texture::Load`). -/
inductive FilterMode where
  | LINEAR
  | NEAREST
deriving DecidableEq

/-- Modelled from the spec: wrap-mode enumeration (`REPEAT` is the default
used by `Texture::Load`). -/
inductive WrapMode where
  | REPEAT
  | CLAMP_TO_EDGE
deriving DecidableEq

/-- Modelled from the spec: `EnumUtil::TextureFormatToString`.  Each
format maps to a distinct lower-case name; none of the names contains the
`*` character that separates the fields of a pool key. -/
def textureFormatToString : TextureFormat → String
  | .UNKNOW => "unknow"
  | .R8 => "r8"
  | .RGB8 => "rgb8"
  | .RGBA8 => "rgba8"
  | .SRGB => "srgb"
  | .SRGB8 => "srgb8"
  | .SRGB_ALPHA => "srgb_alpha"
  | .SRGB8_ALPHA8 => "srgb8_alpha8"

/-- Modelled from the spec: `EnumUtil::TextureFormatFromString`, the left
inverse used by `Texture::Load`; an unrecognised name yields `UNKNOW`. -/
def textureFormatFromString (s : String) : TextureFormat :=
  if s = "r8" then .R8
  else if s = "rgb8" then .RGB8
  else if s = "rgba8" then .RGBA8
  else if s = "srgb" then .SRGB
  else if s = "srgb8" then .SRGB8
  else if s = "srgb_alpha" then .SRGB_ALPHA
  else if s = "srgb8_alpha8" then .SRGB8_ALPHA8
  else .UNKNOW

/-- Modelled from the spec: `EnumUtil::TextureTypeToString`. -/
def textureTypeToString : TextureType → String
  | .TEXTURE_2D => "texture_2d"
  | .TEXTURE_2D_ARRAY => "texture_2d_array"

/-- Modelled from the spec: `EnumUtil::TextureTypeFromString`;
`Texture::Load` defaults a missing or unrecognised type to `TEXTURE_2D`. -/
def textureTypeFromString (s : String) : TextureType :=
  if s = "texture_2d_array" then .TEXTURE_2D_ARRAY else .TEXTURE_2D

/-- Modelled from the spec: `EnumUtil::FilterModeToString`. -/
def filterModeToString : FilterMode → String
  | .LINEAR => "linear"
  | .NEAREST => "nearest"

/-- Modelled from the spec: `EnumUtil::FilterModeFromString`. -/
def filterModeFromString (s : String) : FilterMode :=
  if s = "nearest" then .NEAREST else .LINEAR

/-- Modelled from the spec: `EnumUtil::WrapModeToString`. -/
def wrapModeToString : WrapMode → String
  | .REPEAT => "repeat"
  | .CLAMP_TO_EDGE => "clamp_to_edge"

/-- Modelled from the spec: `EnumUtil::WrapModeFromString`. -/
def wrapModeFromString (s : String) : WrapMode :=
  if s = "clamp_to_edge" then .CLAMP_TO_EDGE else .REPEAT

/-- Modelled from the spec: `EnumUtil::TextureBitPerPixel`, the
bits-per-pixel table that the byte-footprint computation multiplies by;
an `UNKNOW` format occupies no storage. -/
def bitPerPixel : TextureFormat → Nat
  | .UNKNOW => 0
  | .R8 => 8
  | .RGB8 => 24
  | .RGBA8 => 32
  | .SRGB => 24
  | .SRGB8 => 24
  | .SRGB_ALPHA => 32
  | .SRGB8_ALPHA8 => 32

/-- Modelled from the spec: `fury::Color` is a 4-component colour value;
the unit only stores, copies and compares border colours, so the
components are uninterpreted numeric values. -/
structure Color where
  r : Int
  g : Int
  b : Int
  a : Int
deriving DecidableEq

/-- Modelled from the spec: `Color::Black`, the default border colour
`Texture::Load` uses when the document carries none. -/
def Color.black : Color := ⟨0, 0, 0, 1⟩

/-- The fields of `fury::Texture` that `Texture.cpp` reads or writes.
`oid` is the object identity (the C++ object address), handed out freshly
by `Texture::Create`; `bufId` is the GL buffer id `m_ID` (0 = no buffer). -/
structure Texture where
  oid : Nat
  name : String
  width : Int
  height : Int
  depth : Int
  format : TextureFormat
  ttype : TextureType
  filterMode : FilterMode
  wrapMode : WrapMode
  borderColor : Color
  mipmap : Bool
  dirty : Bool
  bufId : Nat
  filePath : String
deriving DecidableEq

/-- The shared mutable state `Texture.cpp` touches: the static pool
`Texture::m_TexturePool` (key to free stack; the head of a stack is its
top), the `BufferManager` registry of object identities, the tracked
memory byte count, and the fresh-identity counters. -/
structure EngineState where
  pool : List (String × List Texture)
  registry : List Nat
  memory : Int
  nextOid : Nat
  nextBufId : Nat
deriving DecidableEq

/-- The state of a freshly constructed process: empty pool, empty
registry, zero tracked memory. -/
def initState : EngineState :=
  { pool := [], registry := [], memory := 0, nextOid := 0, nextBufId := 0 }

/-- Modelled from the spec: the field defaults declared in `Texture.h`
(not among the sources) for a just-constructed `Texture`; the border
colour `(0,0,0,0)` is set by the constructor shown in `Texture.cpp`. -/
def freshTexture : Texture :=
  { oid := 0, name := "", width := 0, height := 0, depth := 0,
    format := .UNKNOW, ttype := .TEXTURE_2D, filterMode := .LINEAR,
    wrapMode := .REPEAT, borderColor := ⟨0, 0, 0, 0⟩, mipmap := false,
    dirty := true, bufId := 0, filePath := "" }

/-- The character a decimal digit prints as (`std::stringstream <<`). -/
def digitChar : Nat → Char
  | 0 => '0' | 1 => '1' | 2 => '2' | 3 => '3' | 4 => '4'
  | 5 => '5' | 6 => '6' | 7 => '7' | 8 => '8' | 9 => '9' | _ => '?'

/-- Fuel-driven most-significant-first decimal printer for naturals. -/
def natCharsGo : Nat → Nat → List Char
  | 0, _ => []
  | fuel + 1, n =>
    if n < 10 then [digitChar n]
    else natCharsGo fuel (n / 10) ++ [digitChar (n % 10)]

/-- The decimal representation of a natural, as `std::stringstream <<`
prints it. -/
def natChars (n : Nat) : List Char := natCharsGo (n + 1) n

/-- The decimal representation of an `int`, as `std::stringstream <<`
prints it: a minus sign followed by the magnitude when negative. -/
def intChars (i : Int) : List Char :=
  if i < 0 then '-' :: natChars i.natAbs else natChars i.toNat

/-- `Texture::GetKeyFromParams`: the pool key
`width * height * depth * format * type` built with `*` separators by a
string stream (`Texture.cpp` lines 66-72). -/
def getKeyFromParams (w h d : Int) (f : TextureFormat) (ty : TextureType) : String :=
  String.mk (intChars w ++ '*' ::
    (intChars h ++ '*' ::
      (intChars d ++ '*' ::
        ((textureFormatToString f).data ++ '*' :: (textureTypeToString ty).data))))

/-- `Texture::GetKeyFromPtr`: the key of a texture's current width,
height, depth, format and type (`Texture.cpp` lines 74-77). -/
def getKeyFromPtr (t : Texture) : String :=
  getKeyFromParams t.width t.height t.depth t.format t.ttype

/-- Lookup in the pool association list (`std::unordered_map::find`);
`none` plays the role of `find` returning `end()`. -/
def lookupPool : List (String × List Texture) → String → Option (List Texture)
  | [], _ => none
  | (k, st) :: rest, key => if key = k then some st else lookupPool rest key

/-- Replace the stack stored under an existing key (in-place mutation of
`it->second`). -/
def setPool : List (String × List Texture) → String → List Texture →
    List (String × List Texture)
  | [], _, _ => []
  | (k, st) :: rest, key, new =>
    if key = k then (k, new) :: rest else (k, st) :: setPool rest key new

/-- `Texture::CollectTempory`'s map update: push onto the stack for `key`,
emplacing an empty stack first when the key is absent
(`Texture.cpp` lines 43-51). -/
def pushPool : List (String × List Texture) → String → Texture →
    List (String × List Texture)
  | [], key, t => [(key, [t])]
  | (k, st) :: rest, key, t =>
    if key = k then (k, t :: st) :: rest else (k, st) :: pushPool rest key t

/-- Modelled from the spec: `BufferManager::Release(id)` of the external
registry drops the first entry with that id; it touches neither the pool
nor the tracked memory count. -/
def removeFirst : List Nat → Nat → List Nat
  | [], _ => []
  | x :: xs, n => if x = n then xs else x :: removeFirst xs n

/-- The byte footprint `m_Width * m_Height * (m_Depth + 1) * bitPerPixel / 8`
of `Texture::IncreaseMemory` / `Texture::DecreaseMemory`
(`Texture.cpp` lines 492-502).  C++ evaluates the product in
`unsigned int`, hence the explicit reduction modulo `2 ^ 32`. -/
def footprint (t : Texture) : Int :=
  ((t.width * t.height * (t.depth + 1) * (bitPerPixel t.format : Int)) % (2 ^ 32)) / 8

/-- `Texture::Create`: allocate a texture with the given name and register
it with the `BufferManager` (`Texture.cpp` lines 16-21). -/
def create (name : String) (s : EngineState) : Texture × EngineState :=
  let t := { freshTexture with oid := s.nextOid, name := name }
  (t, { s with nextOid := s.nextOid + 1, registry := s.registry ++ [t.oid] })

/-- `Texture::DeleteBuffer` (`Texture.cpp` lines 346-359): mark dirty;
when a buffer exists, decrease the tracked memory by the footprint, free
the GL buffer, zero the id, reset width and height and format, clear the
file path. -/
def deleteBuffer (t : Texture) (s : EngineState) : Texture × EngineState :=
  let t1 := { t with dirty := true }
  if t.bufId ≠ 0 then
    ({ t1 with bufId := 0, width := 0, height := 0, format := .UNKNOW, filePath := "" },
     { s with memory := s.memory - footprint t })
  else (t1, s)

/-- `Texture::CreateEmpty` (`Texture.cpp` lines 263-314): delete any old
buffer; bail out on `UNKNOW`; otherwise store the parameters, clear the
dirty flag, allocate a fresh GL buffer and increase the tracked memory by
the footprint. -/
def createEmpty (w h d : Int) (f : TextureFormat) (ty : TextureType) (mip : Bool)
    (t : Texture) (s : EngineState) : Texture × EngineState :=
  let r := deleteBuffer t s
  if f = .UNKNOW then r
  else
    let t2 := { r.1 with mipmap := mip, format := f, dirty := false, width := w,
                         height := h, depth := d, ttype := ty,
                         bufId := r.2.nextBufId + 1 }
    (t2, { r.2 with nextBufId := r.2.nextBufId + 1,
                    memory := r.2.memory + footprint t2 })

/-- `Texture::CreateFromImage` (`Texture.cpp` lines 200-261).  `env` is
the image loader `FileUtil::LoadImage` (with `Scene::Path` resolution),
an external collaborator: it maps a file path to `(width, height,
channels)` pixel data, or `none` on failure.  The loader writes the
width/height out-parameters before the channel switch; a channel count
other than 3 or 4 leaves the format `UNKNOW` with no allocation. -/
def createFromImage (env : String → Option (Int × Int × Nat)) (path : String)
    (srgb mip : Bool) (t : Texture) (s : EngineState) : Texture × EngineState :=
  let r := deleteBuffer t s
  match env path with
  | none => r
  | some (w, h, ch) =>
    let t1 := { r.1 with width := w, height := h }
    if ch = 3 ∨ ch = 4 then
      let f := if ch = 3 then (if srgb then TextureFormat.SRGB8 else .RGB8)
               else (if srgb then .SRGB8_ALPHA8 else .RGBA8)
      let t2 := { t1 with format := f, depth := 0, mipmap := mip, filePath := path,
                          dirty := false, bufId := r.2.nextBufId + 1 }
      (t2, { r.2 with nextBufId := r.2.nextBufId + 1,
                      memory := r.2.memory + footprint t2 })
    else ({ t1 with format := .UNKNOW }, r.2)

/-- The allocation arm of `Texture::GetTempory` (`Texture.cpp` lines
37-40): `Texture::Create(key)` (which already registers the texture),
`CreateEmpty` with the requested shape, and a second
`BufferManager::Add`. -/
def getTemporyCreate (key : String) (w h d : Int) (f : TextureFormat)
    (ty : TextureType) (s : EngineState) : Texture × EngineState :=
  let c := create key s
  let r := createEmpty w h d f ty false c.1 c.2
  (r.1, { r.2 with registry := r.2.registry ++ [r.1.oid] })

/-- `Texture::GetTempory` (`Texture.cpp` lines 23-41): pop the top of the
free stack for the key when that stack exists and is non-empty, else
allocate. -/
def getTempory (w h d : Int) (f : TextureFormat) (ty : TextureType)
    (s : EngineState) : Texture × EngineState :=
  let key := getKeyFromParams w h d f ty
  match lookupPool s.pool key with
  | some (t :: rest) => (t, { s with pool := setPool s.pool key rest })
  | some [] => getTemporyCreate key w h d f ty s
  | none => getTemporyCreate key w h d f ty s

/-- `Texture::CollectTempory` (`Texture.cpp` lines 43-51): push the
texture onto the free stack for its own key. -/
def collectTempory (t : Texture) (s : EngineState) : EngineState :=
  { s with pool := pushPool s.pool (getKeyFromPtr t) t }

/-- `Texture::ReleaseTempories` (`Texture.cpp` lines 53-64).  The
range-for `for (auto pair : m_TexturePool)` copies each map entry, so the
`pop` calls drain only the copy: the only effect on shared state is the
`BufferManager::Release(id)` call per pooled texture, top to bottom.  The
pool map and the tracked memory are untouched. -/
def releaseLoop (pool : List (String × List Texture)) (reg0 : List Nat) : List Nat :=
  pool.foldl (fun reg e => e.2.foldl (fun r t => removeFirst r t.oid) reg) reg0

/-- See `releaseLoop`: the two nested loops of `Texture::ReleaseTempories`,
acting on the registry only. -/
def releaseTempories (s : EngineState) : EngineState :=
  { s with registry := releaseLoop s.pool s.registry }

/-- `Texture::IsSRGB` (`Texture.cpp` lines 361-365). -/
def isSRGB (t : Texture) : Bool :=
  t.format = TextureFormat.SRGB ∨ t.format = .SRGB8 ∨
    t.format = .SRGB8_ALPHA8 ∨ t.format = .SRGB_ALPHA

/-- `Texture::UpdateBuffer` (`Texture.cpp` lines 333-344): return when a
buffer already exists or the texture is not dirty; otherwise clear the
dirty flag and recreate from the stored file path when one is set, else
from the stored parameters. -/
def updateBuffer (env : String → Option (Int × Int × Nat)) (t : Texture)
    (s : EngineState) : Texture × EngineState :=
  if t.bufId > 0 ∨ t.dirty = false then (t, s)
  else
    let t1 := { t with dirty := false }
    if t.filePath ≠ "" then createFromImage env t.filePath (isSRGB t) t.mipmap t1 s
    else createEmpty t.width t.height t.depth t.format t.ttype t.mipmap t1 s

/-- Modelled from the spec: the serialized document tree behind the
`void* wrapper` of `Serializable` — a value of the human-editable
configuration format: a string, integer, boolean or colour leaf, or an
object of named members. -/
inductive JValue where
  | jstr : String → JValue
  | jint : Int → JValue
  | jbool : Bool → JValue
  | jcolor : Color → JValue
  | jobj : List (String × JValue) → JValue

/-- `IsObject(wrapper)`. -/
def isObject : JValue → Bool
  | .jobj _ => true
  | _ => false

/-- The member list of an object node (a non-object has no members). -/
def members : JValue → List (String × JValue)
  | .jobj l => l
  | _ => []

/-- First member with the given name. -/
def findMember : List (String × JValue) → String → Option JValue
  | [], _ => none
  | (k, v) :: rest, key => if key = k then some v else findMember rest key

/-- `LoadMemberValue(wrapper, key, std::string&)`: a usable string member. -/
def findStr (mems : List (String × JValue)) (key : String) : Option String :=
  match findMember mems key with
  | some (JValue.jstr s) => some s
  | _ => none

/-- `LoadMemberValue(wrapper, key, int&)`: a usable integer member. -/
def findInt (mems : List (String × JValue)) (key : String) : Option Int :=
  match findMember mems key with
  | some (JValue.jint i) => some i
  | _ => none

/-- `LoadMemberValue(wrapper, key, bool&)`: a usable boolean member. -/
def findBool (mems : List (String × JValue)) (key : String) : Option Bool :=
  match findMember mems key with
  | some (JValue.jbool b) => some b
  | _ => none

/-- `LoadMemberValue(wrapper, key, Color&)`: a usable colour member. -/
def findColor (mems : List (String × JValue)) (key : String) : Option Color :=
  match findMember mems key with
  | some (JValue.jcolor c) => some c
  | _ => none

/-- Modelled from the spec: `Entity::Load(wrapper, false)` of the external
entity registry succeeds exactly when the document names the entity. -/
def entityLoadOk (wrapper : JValue) : Bool :=
  (findStr (members wrapper) "name").isSome

/-- Modelled from the spec: `Entity::Save(wrapper, false)` writes the
entity's name. -/
def entitySave (t : Texture) : List (String × JValue) :=
  [("name", JValue.jstr t.name)]

/-- `Texture::Save` (`Texture.cpp` lines 157-198): the member list the
method writes — the entity part, then either the shape parameters (no
file path) or the path with its srgb flag, then border colour, mipmap,
filter and wrap. -/
def textureSave (t : Texture) : List (String × JValue) :=
  entitySave t ++
    (if t.filePath = "" then
      [("format", JValue.jstr (textureFormatToString t.format)),
       ("type", JValue.jstr (textureTypeToString t.ttype)),
       ("width", JValue.jint t.width),
       ("height", JValue.jint t.height),
       ("depth", JValue.jint t.depth)]
     else
      [("path", JValue.jstr t.filePath),
       ("srgb", JValue.jbool (isSRGB t))]) ++
    [("borderColor", JValue.jcolor t.borderColor),
     ("mipmap", JValue.jbool t.mipmap),
     ("filter", JValue.jstr (filterModeToString t.filterMode)),
     ("wrap", JValue.jstr (wrapModeToString t.wrapMode))]

/-- `Texture::Load` (`Texture.cpp` lines 91-155), returning the C++
`bool` result together with the mutated texture and engine state.  The
object check, the `Entity::Load` call, the defaulted filter / wrap /
border / mipmap reads, and the path-versus-parameters branch follow the
source line by line. -/
def textureLoad (env : String → Option (Int × Int × Nat)) (wrapper : JValue)
    (object : Bool) (t : Texture) (s : EngineState) :
    Bool × Texture × EngineState :=
  if object && !isObject wrapper then (false, t, s)
  else if !entityLoadOk wrapper then (false, t, s)
  else
    let mems := members wrapper
    let fm := match findStr mems "filter" with
      | some str => filterModeFromString str
      | none => FilterMode.LINEAR
    let wm := match findStr mems "wrap" with
      | some str => wrapModeFromString str
      | none => WrapMode.REPEAT
    let color := (findColor mems "borderColor").getD Color.black
    let mip := (findBool mems "mipmap").getD false
    let t1 := { t with borderColor := color, filterMode := fm, wrapMode := wm }
    match findStr mems "path" with
    | some path =>
      let srgb := (findBool mems "srgb").getD false
      let r := createFromImage env path srgb mip t1 s
      (true, r.1, r.2)
    | none =>
      match findStr mems "format" with
      | none => (false, t1, s)
      | some fstr =>
        let f := textureFormatFromString fstr
        let tystr := (findStr mems "type").getD (textureTypeToString .TEXTURE_2D)
        let ty := textureTypeFromString tystr
        match findInt mems "width", findInt mems "height" with
        | some w, some hgt =>
          let d := (findInt mems "depth").getD 0
          let r := createEmpty w hgt d f ty mip t1 s
          (true, r.1, r.2)
        | _, _ => (false, t1, s)

theorem digitChar_inj : ∀ a < 10, ∀ b < 10, digitChar a = digitChar b → a = b := by
  decide

theorem digitChar_ne : ∀ a < 10, digitChar a ≠ '*' ∧ digitChar a ≠ '-' := by
  decide

theorem natCharsGo_spec : ∀ fuel n, n < fuel →
    natCharsGo fuel n =
      if n = 0 then ['0'] else ((Nat.digits 10 n).map digitChar).reverse := by
  intro fuel
  induction fuel with
  | zero => omega
  | succ f ih =>
    intro n hn
    by_cases h10 : n < 10
    · by_cases h0 : n = 0
      · subst h0; simp [natCharsGo, digitChar]
      · have hd : Nat.digits 10 n = [n] := by
          rw [Nat.digits_def' (by norm_num) (Nat.pos_of_ne_zero h0)]
          rw [Nat.mod_eq_of_lt h10, Nat.div_eq_of_lt h10, Nat.digits_zero]
        simp [natCharsGo, h10, h0, hd]
    · have hpos : 0 < n := by omega
      have hdiv : n / 10 < f := by
        have := Nat.div_lt_self hpos (by norm_num : 1 < 10)
        omega
      have hdpos : n / 10 ≠ 0 := by
        have := Nat.div_pos (by omega : 10 ≤ n) (by norm_num : 0 < 10)
        omega
      have hn0 : n ≠ 0 := by omega
      rw [show natCharsGo (f + 1) n = natCharsGo f (n / 10) ++ [digitChar (n % 10)] by
        simp [natCharsGo, h10]]
      rw [ih (n / 10) hdiv, if_neg hdpos, if_neg hn0]
      rw [Nat.digits_def' (by norm_num : (1 : Nat) < 10) hpos]
      simp

theorem natChars_spec (n : Nat) :
    natChars n = if n = 0 then ['0'] else ((Nat.digits 10 n).map digitChar).reverse :=
  natCharsGo_spec (n + 1) n (by omega)

theorem mem_natChars {c : Char} {n : Nat} (h : c ∈ natChars n) :
    c ≠ '*' ∧ c ≠ '-' := by
  rw [natChars_spec] at h
  by_cases h0 : n = 0
  · rw [if_pos h0] at h
    simp at h
    subst h
    decide
  · rw [if_neg h0, List.mem_reverse] at h
    obtain ⟨d, hd, rfl⟩ := List.mem_map.mp h
    exact digitChar_ne d (Nat.digits_lt_base (by norm_num) hd)

theorem natChars_ne_nil (n : Nat) : natChars n ≠ [] := by
  rw [natChars_spec]
  by_cases h0 : n = 0
  · simp [h0]
  · rw [if_neg h0]
    simp
    exact Nat.digits_ne_nil_iff_ne_zero.mpr h0

theorem map_digitChar_inj : ∀ l1 l2 : List Nat, (∀ d ∈ l1, d < 10) →
    (∀ d ∈ l2, d < 10) → l1.map digitChar = l2.map digitChar → l1 = l2 := by
  intro l1
  induction l1 with
  | nil => intro l2 _ _ h; cases l2 <;> simp_all
  | cons a as ih =>
    intro l2 h1 h2 h
    cases l2 with
    | nil => simp_all
    | cons b bs =>
      simp only [List.map_cons, List.cons.injEq] at h
      have ha : a = b :=
        digitChar_inj a (h1 a (by simp)) b (h2 b (by simp)) h.1
      have : as = bs :=
        ih bs (fun d hd => h1 d (by simp [hd])) (fun d hd => h2 d (by simp [hd])) h.2
      simp [ha, this]

theorem digits_map_zero_char {n : Nat} (h : (Nat.digits 10 n).map digitChar = ['0']) :
    n = 0 := by
  have hd : Nat.digits 10 n = [0] := by
    cases hds : Nat.digits 10 n with
    | nil => rw [hds] at h; simp at h
    | cons d ds =>
      rw [hds] at h
      simp only [List.map_cons, List.cons.injEq] at h
      have hd10 : d < 10 := Nat.digits_lt_base (by norm_num) (by rw [hds]; simp)
      have hd0 : d = 0 := digitChar_inj d hd10 0 (by norm_num) (by rw [h.1]; rfl)
      have hds0 : ds = [] := by simpa using h.2
      simp [hd0, hds0]
  have h2 := congrArg (Nat.ofDigits 10) hd
  rw [Nat.ofDigits_digits] at h2
  simpa [Nat.ofDigits] using h2

theorem natChars_inj {m n : Nat} (h : natChars m = natChars n) : m = n := by
  rw [natChars_spec, natChars_spec] at h
  by_cases hm : m = 0 <;> by_cases hn : n = 0
  · omega
  · exfalso
    rw [if_pos hm, if_neg hn] at h
    have h1 : (Nat.digits 10 n).map digitChar = ['0'] := by
      have h2 := congrArg List.reverse h
      simpa using h2.symm
    exact hn (digits_map_zero_char h1)
  · exfalso
    rw [if_neg hm, if_pos hn] at h
    have h1 : (Nat.digits 10 m).map digitChar = ['0'] := by
      have h2 := congrArg List.reverse h
      simpa using h2
    exact hm (digits_map_zero_char h1)
  · rw [if_neg hm, if_neg hn] at h
    have h2 := List.reverse_injective h
    have h3 := map_digitChar_inj _ _
      (fun d hd => Nat.digits_lt_base (by norm_num) hd)
      (fun d hd => Nat.digits_lt_base (by norm_num) hd) h2
    have := congrArg (Nat.ofDigits 10) h3
    rwa [Nat.ofDigits_digits, Nat.ofDigits_digits] at this

theorem mem_intChars {c : Char} {i : Int} (h : c ∈ intChars i) : c ≠ '*' := by
  unfold intChars at h
  by_cases hi : i < 0
  · rw [if_pos hi] at h
    rcases List.mem_cons.mp h with h1 | h1
    · subst h1; decide
    · exact (mem_natChars h1).1
  · rw [if_neg hi] at h
    exact (mem_natChars h).1

theorem intChars_inj {i j : Int} (h : intChars i = intChars j) : i = j := by
  unfold intChars at h
  by_cases hi : i < 0 <;> by_cases hj : j < 0
  · rw [if_pos hi, if_pos hj] at h
    have := natChars_inj (List.cons_injective h)
    omega
  · exfalso
    rw [if_pos hi, if_neg hj] at h
    have hd : '-' ∈ natChars j.toNat := by
      rw [← h]; simp
    exact (mem_natChars hd).2 rfl
  · exfalso
    rw [if_neg hi, if_pos hj] at h
    have hd : '-' ∈ natChars i.toNat := by
      rw [h]; simp
    exact (mem_natChars hd).2 rfl
  · rw [if_neg hi, if_neg hj] at h
    have := natChars_inj h
    omega

theorem sep_split : ∀ (a a' r r' : List Char), '*' ∉ a → '*' ∉ a' →
    a ++ '*' :: r = a' ++ '*' :: r' → a = a' ∧ r = r' := by
  intro a
  induction a with
  | nil =>
    intro a' r r' _ ha' h
    cases a' with
    | nil => simpa using h
    | cons x xs =>
      exfalso
      simp only [List.nil_append, List.cons_append, List.cons.injEq] at h
      exact ha' (by rw [← h.1]; simp)
  | cons x xs ih =>
    intro a' r r' ha ha' h
    cases a' with
    | nil =>
      exfalso
      simp only [List.cons_append, List.nil_append, List.cons.injEq] at h
      exact ha (by rw [h.1]; simp)
    | cons y ys =>
      simp only [List.cons_append, List.cons.injEq] at h
      have hx : '*' ∉ xs := fun hc => ha (by simp [hc])
      have hy : '*' ∉ ys := fun hc => ha' (by simp [hc])
      obtain ⟨h1, h2⟩ := ih ys r r' hx hy h.2
      exact ⟨by simp [h.1, h1], h2⟩

theorem textureFormat_roundtrip (f : TextureFormat) :
    textureFormatFromString (textureFormatToString f) = f := by
  cases f <;> rfl

theorem textureType_roundtrip (ty : TextureType) :
    textureTypeFromString (textureTypeToString ty) = ty := by
  cases ty <;> rfl

theorem filterMode_roundtrip (m : FilterMode) :
    filterModeFromString (filterModeToString m) = m := by
  cases m <;> rfl

theorem wrapMode_roundtrip (m : WrapMode) :
    wrapModeFromString (wrapModeToString m) = m := by
  cases m <;> rfl

theorem textureFormatToString_star (f : TextureFormat) :
    '*' ∉ (textureFormatToString f).data := by
  cases f <;> decide

theorem textureFormatToString_inj {f f' : TextureFormat}
    (h : textureFormatToString f = textureFormatToString f') : f = f' := by
  have := congrArg textureFormatFromString h
  rwa [textureFormat_roundtrip, textureFormat_roundtrip] at this

theorem textureTypeToString_inj {ty ty' : TextureType}
    (h : textureTypeToString ty = textureTypeToString ty') : ty = ty' := by
  have := congrArg textureTypeFromString h
  rwa [textureType_roundtrip, textureType_roundtrip] at this

theorem getKeyFromParams_inj {w h d : Int} {f : TextureFormat} {ty : TextureType}
    {w' h' d' : Int} {f' : TextureFormat} {ty' : TextureType}
    (he : getKeyFromParams w h d f ty = getKeyFromParams w' h' d' f' ty') :
    w = w' ∧ h = h' ∧ d = d' ∧ f = f' ∧ ty = ty' := by
  unfold getKeyFromParams at he
  have hl : intChars w ++ '*' ::
      (intChars h ++ '*' ::
        (intChars d ++ '*' ::
          ((textureFormatToString f).data ++ '*' :: (textureTypeToString ty).data))) =
      intChars w' ++ '*' ::
      (intChars h' ++ '*' ::
        (intChars d' ++ '*' ::
          ((textureFormatToString f').data ++ '*' :: (textureTypeToString ty').data))) := by
    have := congrArg String.data he
    simpa using this
  obtain ⟨e1, hl⟩ := sep_split _ _ _ _
    (fun hc => mem_intChars hc rfl) (fun hc => mem_intChars hc rfl) hl
  obtain ⟨e2, hl⟩ := sep_split _ _ _ _
    (fun hc => mem_intChars hc rfl) (fun hc => mem_intChars hc rfl) hl
  obtain ⟨e3, hl⟩ := sep_split _ _ _ _
    (fun hc => mem_intChars hc rfl) (fun hc => mem_intChars hc rfl) hl
  obtain ⟨e4, e5⟩ := sep_split _ _ _ _
    (textureFormatToString_star f) (textureFormatToString_star f') hl
  refine ⟨intChars_inj e1, intChars_inj e2, intChars_inj e3, ?_, ?_⟩
  · exact textureFormatToString_inj (String.ext e4)
  · exact textureTypeToString_inj (String.ext e5)

theorem lookupPool_pushPool_self (p : List (String × List Texture)) (k : String)
    (t : Texture) :
    lookupPool (pushPool p k t) k = some (t :: (lookupPool p k).getD []) := by
  induction p with
  | nil => simp [pushPool, lookupPool]
  | cons e rest ih =>
    obtain ⟨k', st⟩ := e
    by_cases hk : k = k'
    · simp [pushPool, lookupPool, hk]
    · simp [pushPool, lookupPool, hk, ih]

theorem lookupPool_pushPool_ne (p : List (String × List Texture)) (k k' : String)
    (t : Texture) (h : k' ≠ k) :
    lookupPool (pushPool p k t) k' = lookupPool p k' := by
  induction p with
  | nil => simp [pushPool, lookupPool, h]
  | cons e rest ih =>
    obtain ⟨k2, st⟩ := e
    by_cases hk : k = k2
    · subst hk
      simp [pushPool, lookupPool, h, ih]
    · by_cases hk' : k' = k2 <;> simp [pushPool, lookupPool, hk, hk', ih]

theorem deleteBuffer_noBuf (t : Texture) (s : EngineState) (h : t.bufId = 0) :
    deleteBuffer t s = ({ t with dirty := true }, s) := by
  simp [deleteBuffer, h]

theorem deleteBuffer_buf (t : Texture) (s : EngineState) (h : t.bufId ≠ 0) :
    deleteBuffer t s =
      ({ t with dirty := true, bufId := 0, width := 0, height := 0,
                format := .UNKNOW, filePath := "" },
       { s with memory := s.memory - footprint t }) := by
  simp [deleteBuffer, h]

theorem createEmpty_unknow (w h d : Int) (ty : TextureType) (mip : Bool)
    (t : Texture) (s : EngineState) :
    createEmpty w h d .UNKNOW ty mip t s = deleteBuffer t s := by
  simp [createEmpty]

theorem getTemporyCreate_spec (key : String) (w h d : Int) (f : TextureFormat)
    (ty : TextureType) (s : EngineState) (hf : f ≠ .UNKNOW) :
    getTemporyCreate key w h d f ty s =
      (⟨s.nextOid, key, w, h, d, f, ty, .LINEAR, .REPEAT, ⟨0, 0, 0, 0⟩, false, false,
         s.nextBufId + 1, ""⟩,
       ⟨s.pool, s.registry ++ [s.nextOid, s.nextOid],
         s.memory + ((w * h * (d + 1) * (bitPerPixel f : Int)) % 2 ^ 32) / 8,
         s.nextOid + 1, s.nextBufId + 1⟩) := by
  simp [getTemporyCreate, create, createEmpty, deleteBuffer, freshTexture,
    footprint, hf]

theorem getTempory_pop {w h d : Int} {f : TextureFormat} {ty : TextureType}
    {s : EngineState} {t : Texture} {rest : List Texture}
    (hl : lookupPool s.pool (getKeyFromParams w h d f ty) = some (t :: rest)) :
    getTempory w h d f ty s =
      (t, { s with pool := setPool s.pool (getKeyFromParams w h d f ty) rest }) := by
  simp only [getTempory]
  rw [hl]

theorem getTempory_miss_none {w h d : Int} {f : TextureFormat} {ty : TextureType}
    {s : EngineState}
    (hl : lookupPool s.pool (getKeyFromParams w h d f ty) = none) :
    getTempory w h d f ty s =
      getTemporyCreate (getKeyFromParams w h d f ty) w h d f ty s := by
  simp only [getTempory]
  rw [hl]

theorem getTempory_miss_nil {w h d : Int} {f : TextureFormat} {ty : TextureType}
    {s : EngineState}
    (hl : lookupPool s.pool (getKeyFromParams w h d f ty) = some []) :
    getTempory w h d f ty s =
      getTemporyCreate (getKeyFromParams w h d f ty) w h d f ty s := by
  simp only [getTempory]
  rw [hl]

/-- A texture shaped `2 x 2 x 0, R8, TEXTURE_2D` with no GL buffer, used as
a concrete instance in witnesses. -/
def tA : Texture := { freshTexture with width := 2, height := 2, format := .R8 }

/-- A texture shaped `2 x 2 x 0, R8, TEXTURE_2D` that owns GL buffer 5. -/
def tBuf : Texture :=
  { freshTexture with width := 2, height := 2, format := .R8, bufId := 5 }

/-- A pool state whose free stack for `tA`'s shape key holds exactly `tA`. -/
def sPop : EngineState :=
  { initState with
      pool := [(getKeyFromParams 2 2 0 TextureFormat.R8 TextureType.TEXTURE_2D, [tA])] }

/-- An image-loader environment in which every load fails. -/
def envNone : String → Option (Int × Int × Nat) := fun _ => none

/-- C8: the pool key of `GetKeyFromParams` is injective on shape tuples —
two parameter tuples produce the same key string iff they are
component-wise equal — and `GetKeyFromPtr` is `GetKeyFromParams` applied
to the texture's current width, height, depth, format and type. -/
theorem getKey_injective_c8 :
    (∀ (w h d : Int) (f : TextureFormat) (ty : TextureType)
       (w' h' d' : Int) (f' : TextureFormat) (ty' : TextureType),
       getKeyFromParams w h d f ty = getKeyFromParams w' h' d' f' ty' ↔
         (w = w' ∧ h = h' ∧ d = d' ∧ f = f' ∧ ty = ty')) ∧
    (∀ t : Texture,
       getKeyFromPtr t = getKeyFromParams t.width t.height t.depth t.format t.ttype) := by
  constructor
  · intro w h d f ty w' h' d' f' ty'
    constructor
    · exact getKeyFromParams_inj
    · rintro ⟨rfl, rfl, rfl, rfl, rfl⟩
      rfl
  · intro t
    rfl

/-- C8 witness: the theorem applied at two concrete tuples and a concrete
texture. -/
theorem getKey_injective_c8_witness :
    (getKeyFromParams 2 2 0 .R8 .TEXTURE_2D = getKeyFromParams 2 3 0 .R8 .TEXTURE_2D ↔
      ((2 : Int) = 2 ∧ (2 : Int) = 3 ∧ (0 : Int) = 0 ∧ TextureFormat.R8 = .R8 ∧
        TextureType.TEXTURE_2D = .TEXTURE_2D)) ∧
    getKeyFromPtr tA = getKeyFromParams tA.width tA.height tA.depth tA.format tA.ttype :=
  ⟨getKey_injective_c8.1 2 2 0 .R8 .TEXTURE_2D 2 3 0 .R8 .TEXTURE_2D,
   getKey_injective_c8.2 tA⟩

/-- C2: contrary to the claim, `Texture::ReleaseTempories` leaves every
free stack of the pool exactly as it was and does not change the tracked
memory total: the range-for copies each map entry by value, so the `pop`
calls drain only the copies and no pooled resource is destroyed. -/
theorem releaseTempories_c2 (s : EngineState) :
    (releaseTempories s).pool = s.pool ∧ (releaseTempories s).memory = s.memory :=
  ⟨rfl, rfl⟩

/-- C3: the tracked memory total falls by the byte footprint
`width * height * (depth + 1) * bitPerPixel / 8` exactly on buffer
deletion, rises by the same formula exactly on allocation, and is
untouched by a check-out that reuses a pooled texture and by a check-in. -/
theorem memoryAccounting_c3 (t : Texture) (s : EngineState) (w h d : Int)
    (f : TextureFormat) (ty : TextureType) :
    (t.bufId ≠ 0 → (deleteBuffer t s).2.memory = s.memory - footprint t) ∧
    (f ≠ .UNKNOW → t.bufId = 0 →
      (createEmpty w h d f ty false t s).2.memory =
        s.memory + ((w * h * (d + 1) * (bitPerPixel f : Int)) % 2 ^ 32) / 8) ∧
    (∀ tp rest, lookupPool s.pool (getKeyFromParams w h d f ty) = some (tp :: rest) →
      (getTempory w h d f ty s).2.memory = s.memory) ∧
    (collectTempory t s).memory = s.memory := by
  refine ⟨?_, ?_, ?_, rfl⟩
  · intro hb
    rw [deleteBuffer_buf t s hb]
  · intro hf hb
    simp [createEmpty, deleteBuffer, hb, hf, footprint]
  · intro tp rest hl
    rw [getTempory_pop hl]

/-- C3 witness: the accounting at a concrete deletion, a concrete
allocation, and a concrete check-in. -/
theorem memoryAccounting_c3_witness :
    (deleteBuffer tBuf initState).2.memory = initState.memory - footprint tBuf ∧
    (createEmpty 2 2 0 .R8 .TEXTURE_2D false freshTexture initState).2.memory =
      initState.memory + ((2 * 2 * (0 + 1) * (bitPerPixel .R8 : Int)) % 2 ^ 32) / 8 ∧
    (collectTempory tBuf initState).memory = initState.memory :=
  ⟨(memoryAccounting_c3 tBuf initState 2 2 0 .R8 .TEXTURE_2D).1 (by decide),
   (memoryAccounting_c3 freshTexture initState 2 2 0 .R8 .TEXTURE_2D).2.1
     (by decide) (by decide),
   (memoryAccounting_c3 tBuf initState 2 2 0 .R8 .TEXTURE_2D).2.2.2⟩

/-- C5: `Texture::CollectTempory` pushes the texture onto the free stack
for its own shape key (creating that stack when absent), deallocates
nothing, and leaves the tracked memory, the registry, every other key's
stack and the id counters unchanged. -/
theorem collectTempory_c5 (t : Texture) (s : EngineState) :
    lookupPool (collectTempory t s).pool (getKeyFromPtr t) =
      some (t :: (lookupPool s.pool (getKeyFromPtr t)).getD []) ∧
    (∀ k, k ≠ getKeyFromPtr t →
      lookupPool (collectTempory t s).pool k = lookupPool s.pool k) ∧
    (collectTempory t s).memory = s.memory ∧
    (collectTempory t s).registry = s.registry ∧
    (collectTempory t s).nextOid = s.nextOid ∧
    (collectTempory t s).nextBufId = s.nextBufId :=
  ⟨lookupPool_pushPool_self _ _ _,
   fun _ hk => lookupPool_pushPool_ne _ _ _ _ hk, rfl, rfl, rfl, rfl⟩

/-- C5 witness: a concrete check-in lands on the stack for the texture's
key and leaves the memory count alone. -/
theorem collectTempory_c5_witness :
    lookupPool (collectTempory tA initState).pool (getKeyFromPtr tA) = some [tA] ∧
    (collectTempory tA initState).memory = initState.memory :=
  ⟨by simpa using (collectTempory_c5 tA initState).1,
   (collectTempory_c5 tA initState).2.2.1⟩

/-- C10: `Texture::CreateEmpty` with format `UNKNOW` first runs
`DeleteBuffer` — marking the texture dirty and, when a buffer existed,
decrementing the memory count by its footprint, zeroing the buffer id and
resetting width and height to 0 — and then allocates nothing: the call is
accepted and the texture is left unallocated. -/
theorem createEmpty_unknow_c10 (w h d : Int) (ty : TextureType) (mip : Bool)
    (t : Texture) (s : EngineState) :
    (createEmpty w h d .UNKNOW ty mip t s).1.bufId = 0 ∧
    (createEmpty w h d .UNKNOW ty mip t s).1.dirty = true ∧
    (createEmpty w h d .UNKNOW ty mip t s).2.nextBufId = s.nextBufId ∧
    (createEmpty w h d .UNKNOW ty mip t s).2.registry = s.registry ∧
    (t.bufId ≠ 0 →
      (createEmpty w h d .UNKNOW ty mip t s).1.width = 0 ∧
      (createEmpty w h d .UNKNOW ty mip t s).1.height = 0 ∧
      (createEmpty w h d .UNKNOW ty mip t s).2.memory = s.memory - footprint t) ∧
    (t.bufId = 0 →
      (createEmpty w h d .UNKNOW ty mip t s).1 = { t with dirty := true } ∧
      (createEmpty w h d .UNKNOW ty mip t s).2 = s) := by
  rw [createEmpty_unknow]
  by_cases hb : t.bufId = 0
  · rw [deleteBuffer_noBuf t s hb]
    simp [hb]
  · rw [deleteBuffer_buf t s hb]
    simp [hb]

/-- C10 witness: the behaviour on a texture that owns a buffer. -/
theorem createEmpty_unknow_c10_witness :
    (createEmpty 7 7 0 .UNKNOW .TEXTURE_2D false tBuf initState).1.bufId = 0 ∧
    (createEmpty 7 7 0 .UNKNOW .TEXTURE_2D false tBuf initState).1.dirty = true ∧
    (createEmpty 7 7 0 .UNKNOW .TEXTURE_2D false tBuf initState).2.memory =
      initState.memory - footprint tBuf :=
  ⟨(createEmpty_unknow_c10 7 7 0 .TEXTURE_2D false tBuf initState).1,
   (createEmpty_unknow_c10 7 7 0 .TEXTURE_2D false tBuf initState).2.1,
   ((createEmpty_unknow_c10 7 7 0 .TEXTURE_2D false tBuf initState).2.2.2.2.1
      (by decide)).2.2⟩

/-- C9: `Texture::UpdateBuffer` is a no-op whenever a buffer already
exists or the texture is not dirty; otherwise it clears the dirty flag
and recreates the buffer from the stored file path when one is set, else
from the stored width, height, depth, format, type and mipmap flag. -/
theorem updateBuffer_c9 (env : String → Option (Int × Int × Nat)) (t : Texture)
    (s : EngineState) :
    ((t.bufId ≠ 0 ∨ t.dirty = false) → updateBuffer env t s = (t, s)) ∧
    (t.bufId = 0 → t.dirty = true →
      (t.filePath ≠ "" →
        updateBuffer env t s =
          createFromImage env t.filePath (isSRGB t) t.mipmap
            { t with dirty := false } s) ∧
      (t.filePath = "" →
        updateBuffer env t s =
          createEmpty t.width t.height t.depth t.format t.ttype t.mipmap
            { t with dirty := false } s)) := by
  constructor
  · intro hcond
    have hpos : t.bufId > 0 ∨ t.dirty = false := by
      rcases hcond with hb | hd
      · exact Or.inl (by omega)
      · exact Or.inr hd
    unfold updateBuffer
    rw [if_pos hpos]
  · intro hb hd
    unfold updateBuffer
    rw [if_neg (by simp [hb, hd])]
    constructor
    · intro hp
      rw [if_pos hp]
    · intro hp
      rw [if_neg (by simp [hp])]

/-- C9 witness: a texture with a live buffer is untouched; a dirty
unallocated texture with no file path is recreated from its stored
parameters. -/
theorem updateBuffer_c9_witness :
    updateBuffer envNone tBuf initState = (tBuf, initState) ∧
    updateBuffer envNone tA initState =
      createEmpty 2 2 0 .R8 .TEXTURE_2D false { tA with dirty := false } initState :=
  ⟨(updateBuffer_c9 envNone tBuf initState).1 (Or.inl (by decide)),
   ((updateBuffer_c9 envNone tA initState).2 rfl rfl).2 rfl⟩

/-- C1 counterexample: on a miss with format `UNKNOW` (empty pool, key
`4*4*0*unknow*texture_2d`), `GetTempory` returns a texture whose own
shape key is not the requested key — `CreateEmpty` bails out before
storing the parameters — so the claim's "allocates a new resource
matching the key" fails. -/
theorem getTempory_c1_counterexample :
    lookupPool initState.pool (getKeyFromParams 4 4 0 .UNKNOW .TEXTURE_2D) = none ∧
    getKeyFromPtr (getTempory 4 4 0 .UNKNOW .TEXTURE_2D initState).1 ≠
      getKeyFromParams 4 4 0 .UNKNOW .TEXTURE_2D := by
  decide

/-- C1 (amended): when the free stack for the key is non-empty,
`GetTempory` pops and returns its top entry; otherwise it creates a new
texture, registers it, and — provided the requested format is not
`UNKNOW` — the new texture matches the key and the tracked memory grows
by the texture's byte footprint (with format `UNKNOW` the new texture is
left unallocated with its default shape). -/
theorem getTempory_c1 (w h d : Int) (f : TextureFormat) (ty : TextureType)
    (s : EngineState) :
    (∀ t rest, lookupPool s.pool (getKeyFromParams w h d f ty) = some (t :: rest) →
      getTempory w h d f ty s =
        (t, { s with pool := setPool s.pool (getKeyFromParams w h d f ty) rest })) ∧
    (f ≠ .UNKNOW →
      (lookupPool s.pool (getKeyFromParams w h d f ty) = none ∨
        lookupPool s.pool (getKeyFromParams w h d f ty) = some []) →
      getKeyFromPtr (getTempory w h d f ty s).1 = getKeyFromParams w h d f ty ∧
      (getTempory w h d f ty s).1.oid = s.nextOid ∧
      (getTempory w h d f ty s).2.registry = s.registry ++ [s.nextOid, s.nextOid] ∧
      (getTempory w h d f ty s).2.memory =
        s.memory + footprint (getTempory w h d f ty s).1 ∧
      (getTempory w h d f ty s).2.pool = s.pool) := by
  constructor
  · intro t rest hl
    exact getTempory_pop hl
  · intro hf hl
    have hg : getTempory w h d f ty s =
        getTemporyCreate (getKeyFromParams w h d f ty) w h d f ty s := by
      rcases hl with hl | hl
      · exact getTempory_miss_none hl
      · exact getTempory_miss_nil hl
    rw [hg, getTemporyCreate_spec _ _ _ _ _ _ _ hf]
    exact ⟨rfl, rfl, rfl, rfl, rfl⟩

/-- C1 witness: a concrete pop from a non-empty stack and a concrete
allocation with its memory increase. -/
theorem getTempory_c1_witness :
    getTempory 2 2 0 .R8 .TEXTURE_2D sPop =
      (tA, { sPop with
               pool := setPool sPop.pool (getKeyFromParams 2 2 0 .R8 .TEXTURE_2D) [] }) ∧
    (getTempory 3 3 0 .R8 .TEXTURE_2D initState).2.memory =
      initState.memory + footprint (getTempory 3 3 0 .R8 .TEXTURE_2D initState).1 :=
  ⟨(getTempory_c1 2 2 0 .R8 .TEXTURE_2D sPop).1 tA [] (by decide),
   ((getTempory_c1 3 3 0 .R8 .TEXTURE_2D initState).2 (by decide)
      (Or.inl (by decide))).2.2.2.1⟩

/-- A pool is well-keyed when every texture sits in the stack of its own
shape key — the invariant `CollectTempory` maintains, since it always
files a texture under `GetKeyFromPtr`. -/
def wellKeyed (pool : List (String × List Texture)) : Prop :=
  ∀ e ∈ pool, ∀ t ∈ e.2, getKeyFromPtr t = e.1


theorem wellKeyed_lookup : ∀ (pool : List (String × List Texture)) (k : String)
    (st : List Texture), wellKeyed pool → lookupPool pool k = some st →
    ∀ t ∈ st, getKeyFromPtr t = k := by
  intro pool
  induction pool with
  | nil =>
    intro k st _ hl
    simp [lookupPool] at hl
  | cons e rest ih =>
    intro k st hw hl
    obtain ⟨k', st'⟩ := e
    rw [lookupPool] at hl
    by_cases hk : k = k'
    · rw [if_pos hk] at hl
      have hst : st' = st := by simpa using hl
      subst hst
      intro t ht
      rw [hw ⟨k', st'⟩ (by simp) t ht, hk]
    · rw [if_neg hk] at hl
      exact ih k st (fun e he => hw e (by simp [he])) hl

/-- The acquire / release / acquire cycle of the pool-idempotence claim:
the pair `(first draw, second draw)` of `GetTempory`, `CollectTempory`
on the first result, `GetTempory` again with the same parameters. -/
def acquireCycle (w h d : Int) (f : TextureFormat) (ty : TextureType)
    (s : EngineState) : (Texture × EngineState) × (Texture × EngineState) :=
  (getTempory w h d f ty s,
   getTempory w h d f ty
     (collectTempory (getTempory w h d f ty s).1 (getTempory w h d f ty s).2))

theorem collect_then_get {w h d : Int} {f : TextureFormat} {ty : TextureType}
    {s2 : EngineState} {t : Texture}
    (hk : getKeyFromPtr t = getKeyFromParams w h d f ty) :
    (getTempory w h d f ty (collectTempory t s2)).1 = t ∧
    (getTempory w h d f ty (collectTempory t s2)).2.memory = s2.memory := by
  have hl2 : lookupPool (collectTempory t s2).pool (getKeyFromParams w h d f ty) =
      some (t :: (lookupPool s2.pool (getKeyFromParams w h d f ty)).getD []) := by
    show lookupPool (pushPool s2.pool (getKeyFromPtr t) t) _ = _
    rw [hk, lookupPool_pushPool_self]
  rw [getTempory_pop hl2]
  exact ⟨rfl, rfl⟩

/-- C4 counterexample: with format `UNKNOW` and an empty pool, the first
`GetTempory` creates a texture whose own key differs from the requested
key, `CollectTempory` files it under that other key, and the second
`GetTempory` creates a fresh texture instead of returning the first. -/
theorem acquireCycle_c4_counterexample :
    (acquireCycle 4 4 0 .UNKNOW .TEXTURE_2D initState).2.1 ≠
      (acquireCycle 4 4 0 .UNKNOW .TEXTURE_2D initState).1.1 := by
  decide

/-- C4 (amended): for every shape key whose format is not `UNKNOW` and
every well-keyed pool state, `Acquire(k)`, `Release` of the returned
texture, then `Acquire(k)` again returns the same underlying texture,
and the tracked memory after the cycle equals the total before the
release. -/
theorem acquireCycle_c4 (w h d : Int) (f : TextureFormat) (ty : TextureType)
    (s : EngineState) (hf : f ≠ .UNKNOW) (hwk : wellKeyed s.pool) :
    (acquireCycle w h d f ty s).2.1 = (acquireCycle w h d f ty s).1.1 ∧
    (acquireCycle w h d f ty s).2.2.memory =
      (acquireCycle w h d f ty s).1.2.memory := by
  have hk : getKeyFromPtr (getTempory w h d f ty s).1 = getKeyFromParams w h d f ty := by
    rcases hcase : lookupPool s.pool (getKeyFromParams w h d f ty) with _ | st
    · rw [getTempory_miss_none hcase, getTemporyCreate_spec _ _ _ _ _ _ _ hf]
      rfl
    · cases st with
      | nil =>
        rw [getTempory_miss_nil hcase, getTemporyCreate_spec _ _ _ _ _ _ _ hf]
        rfl
      | cons t rest =>
        rw [getTempory_pop hcase]
        exact wellKeyed_lookup s.pool _ _ hwk hcase t (by simp)
  have hcg := @collect_then_get w h d f ty (getTempory w h d f ty s).2
    (getTempory w h d f ty s).1 hk
  unfold acquireCycle
  exact ⟨hcg.1, hcg.2⟩

/-- C4 witness: the cycle at a concrete non-`UNKNOW` key on the empty
(trivially well-keyed) pool. -/
theorem acquireCycle_c4_witness :
    (acquireCycle 2 2 0 .R8 .TEXTURE_2D initState).2.1 =
      (acquireCycle 2 2 0 .R8 .TEXTURE_2D initState).1.1 :=
  (acquireCycle_c4 2 2 0 .R8 .TEXTURE_2D initState (by decide)
    (by simp [wellKeyed, initState])).1

/-- C7: `Texture::Load` returns `false` exactly when the node is not an
object (while `object` is `true`), when the base `Entity` load fails, or
when no usable `path` member exists and either the `format` member or the
`width` / `height` members are missing; in every other case it returns
`true`. -/
theorem load_failure_c7 (env : String → Option (Int × Int × Nat)) (wrapper : JValue)
    (object : Bool) (t : Texture) (s : EngineState) :
    (textureLoad env wrapper object t s).1 = false ↔
      ((object = true ∧ isObject wrapper = false) ∨
       entityLoadOk wrapper = false ∨
       (findStr (members wrapper) "path" = none ∧
         (findStr (members wrapper) "format" = none ∨
          findInt (members wrapper) "width" = none ∨
          findInt (members wrapper) "height" = none))) := by
  unfold textureLoad
  by_cases h1 : (object && !isObject wrapper) = true
  · rw [if_pos h1]
    simp only [Bool.and_eq_true, Bool.not_eq_true'] at h1
    simp [h1]
  · rw [if_neg h1]
    simp only [Bool.and_eq_true, Bool.not_eq_true'] at h1
    by_cases h2 : (!entityLoadOk wrapper) = true
    · rw [if_pos h2]
      simp only [Bool.not_eq_true'] at h2
      simp [h2]
    · rw [if_neg h2]
      have h2' : entityLoadOk wrapper = true := by
        revert h2
        cases entityLoadOk wrapper <;> simp
      rcases hp : findStr (members wrapper) "path" with _ | p
      · simp only [hp]
        rcases hf : findStr (members wrapper) "format" with _ | fstr
        · simp [h1, h2', hf]
        · simp only [hf]
          rcases hw : findInt (members wrapper) "width" with _ | wv
          · simp [h1, h2', hf, hw]
          · rcases hh : findInt (members wrapper) "height" with _ | hv
            · simp [h1, h2', hf, hw, hh]
            · simp [h1, h2', hf, hw, hh]
      · simp [h1, h2', hp]

theorem createEmpty_proj (w h d : Int) (f : TextureFormat) (ty : TextureType)
    (mip : Bool) (t : Texture) (s : EngineState) (hf : f ≠ .UNKNOW) :
    (createEmpty w h d f ty mip t s).1.format = f ∧
    (createEmpty w h d f ty mip t s).1.ttype = ty ∧
    (createEmpty w h d f ty mip t s).1.width = w ∧
    (createEmpty w h d f ty mip t s).1.height = h ∧
    (createEmpty w h d f ty mip t s).1.depth = d ∧
    (createEmpty w h d f ty mip t s).1.mipmap = mip ∧
    (createEmpty w h d f ty mip t s).1.borderColor = t.borderColor ∧
    (createEmpty w h d f ty mip t s).1.filterMode = t.filterMode ∧
    (createEmpty w h d f ty mip t s).1.wrapMode = t.wrapMode := by
  unfold createEmpty deleteBuffer
  rw [if_neg hf]
  split <;> simp

/-- The texture produced by saving `t` (as an object) and loading the
saved document into `t0`: the round trip of the load / save pair. -/
def loadedOf (env : String → Option (Int × Int × Nat)) (t t0 : Texture)
    (s : EngineState) : Texture :=
  (textureLoad env (JValue.jobj (textureSave t)) true t0 s).2.1

/-- A non-file-backed texture with format `UNKNOW` and nonzero width —
the state `CreateFromImage` leaves behind when an image has an
unsupported channel count. -/
def tU : Texture := { freshTexture with width := 3, height := 3 }

/-- C6 counterexample: a non-file-backed texture with format `UNKNOW` and
width 3 does not round-trip: the loaded texture has width 0, because
`Load`'s `CreateEmpty` call bails out on `UNKNOW` before storing the
width. -/
theorem saveLoad_c6_counterexample :
    tU.filePath = "" ∧ tU.width = 3 ∧
    (loadedOf envNone tU freshTexture initState).width = 0 := by
  decide

/-- C6 (amended): every non-file-backed texture whose format is not
`UNKNOW` survives a save / load round trip: the load succeeds and the
loaded texture agrees with the original on format, type, width, height,
depth, border colour, mipmap flag, filter mode and wrap mode. -/
theorem saveLoad_roundtrip_c6 (env : String → Option (Int × Int × Nat))
    (t t0 : Texture) (s : EngineState) (hpath : t.filePath = "")
    (hf : t.format ≠ .UNKNOW) :
    (textureLoad env (JValue.jobj (textureSave t)) true t0 s).1 = true ∧
    (loadedOf env t t0 s).format = t.format ∧
    (loadedOf env t t0 s).ttype = t.ttype ∧
    (loadedOf env t t0 s).width = t.width ∧
    (loadedOf env t t0 s).height = t.height ∧
    (loadedOf env t t0 s).depth = t.depth ∧
    (loadedOf env t t0 s).borderColor = t.borderColor ∧
    (loadedOf env t t0 s).mipmap = t.mipmap ∧
    (loadedOf env t t0 s).filterMode = t.filterMode ∧
    (loadedOf env t t0 s).wrapMode = t.wrapMode := by
  have hmem : members (JValue.jobj (textureSave t)) =
      [("name", JValue.jstr t.name),
       ("format", JValue.jstr (textureFormatToString t.format)),
       ("type", JValue.jstr (textureTypeToString t.ttype)),
       ("width", JValue.jint t.width),
       ("height", JValue.jint t.height),
       ("depth", JValue.jint t.depth),
       ("borderColor", JValue.jcolor t.borderColor),
       ("mipmap", JValue.jbool t.mipmap),
       ("filter", JValue.jstr (filterModeToString t.filterMode)),
       ("wrap", JValue.jstr (wrapModeToString t.wrapMode))] := by
    simp [members, textureSave, entitySave, hpath]
  have hload : textureLoad env (JValue.jobj (textureSave t)) true t0 s =
      (true,
        createEmpty t.width t.height t.depth t.format t.ttype t.mipmap
          { t0 with borderColor := t.borderColor, filterMode := t.filterMode,
                    wrapMode := t.wrapMode } s) := by
    unfold textureLoad
    rw [if_neg (by simp [isObject])]
    rw [if_neg (by simp [entityLoadOk, hmem, findStr, findMember])]
    simp [members, textureSave, entitySave, hpath, findStr, findInt, findBool,
      findColor, findMember, textureFormat_roundtrip, textureType_roundtrip,
      filterMode_roundtrip, wrapMode_roundtrip]
  have hproj := createEmpty_proj t.width t.height t.depth t.format t.ttype t.mipmap
    { t0 with borderColor := t.borderColor, filterMode := t.filterMode,
              wrapMode := t.wrapMode } s hf
  constructor
  · rw [hload]
  unfold loadedOf
  rw [hload]
  exact ⟨hproj.1, hproj.2.1, hproj.2.2.1, hproj.2.2.2.1, hproj.2.2.2.2.1,
    hproj.2.2.2.2.2.2.1, hproj.2.2.2.2.2.1, hproj.2.2.2.2.2.2.2.1,
    hproj.2.2.2.2.2.2.2.2⟩

/-- C6 witness: the round trip at a concrete `2 x 2, R8` texture. -/
theorem saveLoad_roundtrip_c6_witness :
    (textureLoad envNone (JValue.jobj (textureSave tA)) true freshTexture initState).1 =
      true ∧
    (loadedOf envNone tA freshTexture initState).width = tA.width :=
  ⟨(saveLoad_roundtrip_c6 envNone tA freshTexture initState rfl (by decide)).1,
   (saveLoad_roundtrip_c6 envNone tA freshTexture initState rfl (by decide)).2.2.2.1⟩
